import Mathlib

/-!
# Verification of the real-time collaboration subsystem

Shallow embedding of the messaging core of the incident-collaboration
backend: the conversation/permission layer (`conversation_service.py`),
the live-connection registry (`connection_manager.py`), the websocket
admission endpoints (`api/messaging/routes.py`) and the incident message
service (`incidents/messaging_service.py`).

Conventions of the embedding:
* Firestore collections become Lean lists of document structures; a
  document id is a `String` field and `document(k).get().exists` becomes
  a `find?`/`any` over the list.
* Python dictionaries (the connection maps, the TTL caches) become
  association lists `List (String × α)`; dictionary assignment replaces
  any previous binding for the key, deletion removes it.
* Wall-clock time is an abstract `Nat` threaded explicitly.
* Transport effects (socket sends, closes) are recorded in an explicit
  event trace instead of performing IO; a transport failure oracle
  `fails : Handle → Bool` stands for `send_text` raising.
-/

namespace Secura

/-! ## Association-list helpers (Python `dict` semantics) -/

/-- First value bound to `key` (Python `d[k]` / `k in d`). -/
def lookupA {α : Type} : List (String × α) → String → Option α
  | [], _ => none
  | e :: rest, key => if e.1 = key then some e.2 else lookupA rest key

/-- Remove every binding of `key` (Python `del d[k]`; on a map with
unique keys this removes the single binding). -/
def eraseA {α : Type} (m : List (String × α)) (key : String) : List (String × α) :=
  m.filter (fun e => e.1 ≠ key)

/-- Python `d[k] = v`: any previous binding is replaced. -/
def setA {α : Type} (m : List (String × α)) (key : String) (v : α) : List (String × α) :=
  eraseA m key ++ [(key, v)]

theorem lookupA_append {α : Type} (m₁ m₂ : List (String × α)) (key : String) :
    lookupA (m₁ ++ m₂) key =
      match lookupA m₁ key with
      | some v => some v
      | none => lookupA m₂ key := by
  induction m₁ with
  | nil => simp [lookupA]
  | cons e rest ih => by_cases h : e.1 = key <;> simp [lookupA, h, ih]

theorem lookupA_eraseA {α : Type} (m : List (String × α)) (k key : String) :
    lookupA (eraseA m k) key = if k = key then none else lookupA m key := by
  induction m with
  | nil => by_cases h : k = key <;> simp [eraseA, lookupA, h]
  | cons e rest ih =>
    by_cases h₀ : e.1 = k <;> by_cases h₁ : e.1 = key <;> by_cases h : k = key <;>
      simp_all [eraseA, lookupA, List.filter_cons]

theorem lookupA_setA {α : Type} (m : List (String × α)) (k key : String) (v : α) :
    lookupA (setA m k v) key = if k = key then some v else lookupA m key := by
  by_cases h : k = key <;>
    simp [setA, lookupA_append, lookupA_eraseA, h, lookupA] <;>
    cases lookupA m key <;> simp

/-- Entries of `m` whose key is `key`. -/
def entriesFor {α : Type} (m : List (String × α)) (key : String) : List (String × α) :=
  m.filter (fun e => e.1 = key)

theorem entriesFor_eraseA_self {α : Type} (m : List (String × α)) (k : String) :
    entriesFor (eraseA m k) k = [] := by
  induction m with
  | nil => rfl
  | cons e rest ih =>
    by_cases h : e.1 = k <;> simp_all [entriesFor, eraseA, List.filter_cons]

theorem entriesFor_eraseA_ne {α : Type} (m : List (String × α)) (k key : String)
    (h : k ≠ key) : entriesFor (eraseA m k) key = entriesFor m key := by
  induction m with
  | nil => rfl
  | cons e rest ih =>
    by_cases h₀ : e.1 = k <;> by_cases h₁ : e.1 = key <;>
      simp_all [entriesFor, eraseA, List.filter_cons]

theorem entriesFor_append {α : Type} (m₁ m₂ : List (String × α)) (key : String) :
    entriesFor (m₁ ++ m₂) key = entriesFor m₁ key ++ entriesFor m₂ key := by
  simp [entriesFor, List.filter_append]

theorem entriesFor_setA_self {α : Type} (m : List (String × α)) (k : String) (v : α) :
    entriesFor (setA m k v) k = [(k, v)] := by
  simp only [setA, entriesFor_append, entriesFor_eraseA_self]
  simp [entriesFor, List.filter_cons]

theorem entriesFor_setA_ne {α : Type} (m : List (String × α)) (k key : String) (v : α)
    (h : k ≠ key) : entriesFor (setA m k v) key = entriesFor m key := by
  rw [setA, entriesFor_append, entriesFor_eraseA_ne _ _ _ h]
  simp [entriesFor, List.filter_cons, h]

/-! ## Data model (Firestore documents)

From `app/models/conversation.py`, `app/models/message.py` and the
document dictionaries built by the services. Enum-valued fields are kept
as their string values (`ConversationType`, `ConversationStatus` are
string enums). -/

/-- A document of the `conversation_participants` collection
(`add_participant` writes it under document id
`conversation_id ++ "_" ++ user_id`). -/
structure ParticipantDoc where
  id : String
  conversation_id : String
  user_id : String
  user_name : String
  user_role : String
  joined_at : Nat
  is_active : Bool
  last_read_at : Option Nat
deriving Repr, DecidableEq

/-- A document of the `conversations` collection. `metadata` and the
archive bookkeeping fields are carried opaque/omitted; no claim touches
them. -/
structure ConvDoc where
  id : String
  conversation_type : String
  title : String
  incident_id : Option String
  status : String
  is_private : Bool
  last_message_id : Option String
  last_message_content : Option String
  last_message_sender : Option String
  last_message_time : Option Nat
  total_messages : Nat
  created_at : Nat
  updated_at : Nat
  created_by : String
deriving Repr, DecidableEq

/-- A document of the `users` collection (the fields the messaging code
reads). -/
structure UserDoc where
  uid : String
  full_name : String
  email : String
  role : String
deriving Repr, DecidableEq

/-- The incident fields consumed by the conversation service
(`incident_service.get_incident` result). -/
structure IncidentDoc where
  id : String
  title : String
  reporter_id : String
  reporter_name : String
deriving Repr, DecidableEq

/-- A document of the `messages` collection (fields used by
`MessagingService`). `created_at` is optional to mirror the fallback
sort key `x.created_at if x.created_at else datetime.min`. -/
structure MessageDoc where
  id : String
  incident_id : String
  sender_id : String
  sender_name : String
  content : String
  created_at : Option Nat
  is_read : Bool
deriving Repr, DecidableEq

/-- The persistent store: the collections the messaging subsystem
queries. -/
structure Store where
  conversations : List ConvDoc
  participants : List ParticipantDoc
  users : List UserDoc
  incidents : List IncidentDoc
  messages : List MessageDoc
deriving Repr, DecidableEq

/-! ## Permission evaluator

`ConversationService.check_user_permission`
(`conversation_service.py`): admin → True; security_team → True;
otherwise the existence of the participant document
`conversation_id_user_id` decides. The conversation itself is never
fetched and `action` is never read. -/

/-- Document id of a participant record, as built by `add_participant`
and by `check_user_permission`. -/
def participantKey (conversation_id user_id : String) : String :=
  conversation_id ++ "_" ++ user_id

/-- `check_user_permission(conversation_id, user_id, user_role, action)`. -/
def check_user_permission (s : Store) (conversation_id user_id user_role action : String) : Bool :=
  if user_role = "admin" then true
  else if user_role = "security_team" then true
  else (s.participants.find? (fun p => p.id = participantKey conversation_id user_id)).isSome

/-- A participant document with the key for `(cid, uid)` exists in the
store (what the employee branch of the code actually tests). -/
def participantRecordExists (s : Store) (cid uid : String) : Bool :=
  (s.participants.find? (fun p => p.id = participantKey cid uid)).isSome

/-- The conversation `cid` is present in the store with type `ty`. -/
def convHasType (s : Store) (cid ty : String) : Bool :=
  s.conversations.any (fun c => c.id = cid && c.conversation_type = ty)

/-! Concrete fixtures for the permission counterexamples. -/

/-- A `team_internal` conversation document. -/
def convC1 : ConvDoc :=
  { id := "c1", conversation_type := "team_internal",
    title := "Security Team Discussion", incident_id := none,
    status := "active", is_private := false,
    last_message_id := none, last_message_content := none,
    last_message_sender := none, last_message_time := none,
    total_messages := 0, created_at := 0, updated_at := 0,
    created_by := "s9" }

/-- Employee `e1` as an active participant of `c1`. -/
def partC1E1 : ParticipantDoc :=
  { id := "c1_e1", conversation_id := "c1", user_id := "e1",
    user_name := "Eve", user_role := "employee",
    joined_at := 0, is_active := true, last_read_at := none }

/-- A store holding the `team_internal` conversation `c1` in which
employee `e1` is an active participant. -/
def storeTeamInternal : Store :=
  { conversations := [convC1], participants := [partC1E1],
    users := [], incidents := [], messages := [] }

/-- A `direct_message` conversation document. -/
def convD1 : ConvDoc :=
  { id := "d1", conversation_type := "direct_message",
    title := "Direct Message", incident_id := none,
    status := "active", is_private := true,
    last_message_id := none, last_message_content := none,
    last_message_sender := none, last_message_time := none,
    total_messages := 0, created_at := 0, updated_at := 0,
    created_by := "e1" }

/-- Participant record of `e1` in `d1`. -/
def partD1E1 : ParticipantDoc :=
  { id := "d1_e1", conversation_id := "d1", user_id := "e1",
    user_name := "Eve", user_role := "employee",
    joined_at := 0, is_active := true, last_read_at := none }

/-- Participant record of `e2` in `d1`. -/
def partD1E2 : ParticipantDoc :=
  { id := "d1_e2", conversation_id := "d1", user_id := "e2",
    user_name := "Bob", user_role := "employee",
    joined_at := 0, is_active := true, last_read_at := none }

/-- A store holding the `direct_message` conversation `d1` between `e1`
and `e2`; the security-team user `s1` is not a participant. -/
def storeDirectMessage : Store :=
  { conversations := [convD1], participants := [partD1E1, partD1E2],
    users := [], incidents := [], messages := [] }

/-- C1 (counterexample): the claim demands that an employee is denied
every `team_internal` conversation regardless of participation; but on
a store holding the `team_internal` conversation `c1` with `e1` as an
active listed participant, `check_user_permission` returns `true` for
`e1` with role `employee` and action `read` — the code never looks at
the conversation type. -/
theorem check_user_permission_employee_team_internal_cex :
    convHasType storeTeamInternal "c1" "team_internal" = true ∧
    check_user_permission storeTeamInternal "c1" "e1" "employee" "read" = true := by
  constructor
  · rfl
  · rfl

/-- C1 (amended): for the `employee` role, `check_user_permission`
holds iff a participant document keyed
`conversation_id ++ "_" ++ user_id` exists in the store — irrespective
of the conversation's type (which is never fetched), of the record's
`is_active` flag, and of the action. -/
theorem check_user_permission_employee_iff_record :
    ∀ (s : Store) (cid uid action : String),
      check_user_permission s cid uid "employee" action = true ↔
        ∃ p ∈ s.participants, p.id = participantKey cid uid := by
  intro s cid uid action
  unfold check_user_permission
  rw [if_neg (by decide), if_neg (by decide)]
  simp [List.find?_isSome]

/-- C3 (counterexample): the claim demands that the security role is
granted a `direct_message` conversation only when listed as a
participant; but on a store holding the `direct_message` conversation
`d1` with no participant record for `s1`, `check_user_permission`
returns `true` for `s1` with role `security_team` — the code grants
this role unconditionally. -/
theorem check_user_permission_security_dm_cex :
    convHasType storeDirectMessage "d1" "direct_message" = true ∧
    participantRecordExists storeDirectMessage "d1" "s1" = false ∧
    check_user_permission storeDirectMessage "d1" "s1" "security_team" "read" = true := by
  refine ⟨rfl, ?_, rfl⟩
  rfl

/-- C3 (amended): for the `security_team` role `check_user_permission`
returns `true` for every conversation id, every store, and every
action — conversation type and participation are never consulted. -/
theorem check_user_permission_security_always_true :
    ∀ (s : Store) (cid uid action : String),
      check_user_permission s cid uid "security_team" action = true := by
  intro s cid uid action
  rfl

/-- C10: `check_user_permission` never reads its `action` argument, so
the result for `action = "read"` coincides with the result for
`action = "write"` and for every other action string: read and write
access are never distinguished. -/
theorem check_user_permission_action_irrelevant :
    ∀ (s : Store) (cid uid role a₁ a₂ : String),
      check_user_permission s cid uid role a₁ = check_user_permission s cid uid role a₂ := by
  intro s cid uid role a₁ a₂
  rfl

/-! ## Connection Registry (`connection_manager.py`)

`ConnectionManager` holds `active_connections : {user_id: WebSocket}`
and `room_connections : {room_id: {user_id: WebSocket}}`. Transport
handles are abstract `Nat` identifiers. -/

/-- Abstract identity of a websocket transport handle. -/
abbrev Handle := Nat

/-- The two connection maps of `ConnectionManager`. -/
structure ConnState where
  active_connections : List (String × Handle)
  room_connections : List (String × List (String × Handle))
deriving Repr, DecidableEq

/-- Observable transport/registry effects, recorded in order. -/
inductive WsEvent where
  /-- `websocket.close(code, reason)` was called on `h`. -/
  | closed (h : Handle) (code : Nat) (reason : String)
  /-- `h` was removed from the general-connection map. -/
  | removed (h : Handle)
  /-- `h` was stored in the registry. -/
  | stored (h : Handle)
  /-- `send_text(payload)` on `h` succeeded. -/
  | sent (h : Handle) (payload : String)
  /-- `send_text` on `h` raised. -/
  | sendFailed (h : Handle)
  /-- The room-map entry `(room, user)` was deleted. -/
  | roomEntryRemoved (room : String) (user : String)
deriving Repr, DecidableEq

/-- `ConnectionManager.connect(websocket, user_id, room_id)`. -/
def connect (st : ConnState) (ws : Handle) (user_id : String) (room_id : Option String) :
    ConnState :=
  match room_id with
  | some rid =>
    let room := (lookupA st.room_connections rid).getD []
    { st with room_connections := setA st.room_connections rid (setA room user_id ws) }
  | none => { st with active_connections := setA st.active_connections user_id ws }

/-- `ConnectionManager.disconnect(websocket, user_id, room_id)`; the
`websocket` argument is not consulted by the deletion, which keys on
`user_id`. -/
def disconnect (st : ConnState) (user_id : String) (room_id : Option String) : ConnState :=
  match room_id with
  | some rid =>
    match lookupA st.room_connections rid with
    | none => st
    | some room =>
      if (lookupA room user_id).isSome then
        let room₂ := eraseA room user_id
        if room₂.isEmpty then { st with room_connections := eraseA st.room_connections rid }
        else { st with room_connections := setA st.room_connections rid room₂ }
      else st
  | none => { st with active_connections := eraseA st.active_connections user_id }

/-- Result of `broadcast_to_room`: the updated maps, the successful
deliveries and the full effect trace. -/
structure BroadcastResult where
  state : ConnState
  delivered : List (Handle × String)
  events : List WsEvent
deriving Repr, DecidableEq

/-- The `for user_id, connection in room.items()` loop of
`broadcast_to_room`: sends in map order, collecting the users whose
send raised into `disconnected_users` instead of aborting. Returns
`(delivered sends, disconnected_users, trace)`. -/
def broadcastLoop (fails : Handle → Bool) (msg : String) :
    List (String × Handle) → List (Handle × String) × List String × List WsEvent
  | [] => ([], [], [])
  | e :: rest =>
    let r := broadcastLoop fails msg rest
    if fails e.2 then (r.1, e.1 :: r.2.1, WsEvent.sendFailed e.2 :: r.2.2)
    else ((e.2, msg) :: r.1, r.2.1, WsEvent.sent e.2 msg :: r.2.2)

/-- `ConnectionManager.broadcast_to_room(room_id, message)`: no-op for
an unknown room; otherwise the delivery loop runs over every handle of
the room and only then are the failing users deleted from the room
map. -/
def broadcast_to_room (st : ConnState) (fails : Handle → Bool) (room_id msg : String) :
    BroadcastResult :=
  match lookupA st.room_connections room_id with
  | none => { state := st, delivered := [], events := [] }
  | some room =>
    let r := broadcastLoop fails msg room
    let room₂ := r.2.1.foldl (fun cs u => eraseA cs u) room
    { state := { st with room_connections := setA st.room_connections room_id room₂ },
      delivered := r.1,
      events := r.2.2 ++ r.2.1.map (fun u => WsEvent.roomEntryRemoved room_id u) }

/-- The handle `h` occurs somewhere in the registry (general map or any
room map). -/
def handleInRegistry (st : ConnState) (h : Handle) : Bool :=
  st.active_connections.any (fun e => e.2 = h) ||
  st.room_connections.any (fun re => re.2.any (fun e => e.2 = h))

/-- The handle `h` is registered nowhere outside room `rid`: not in the
general map and in no other room. (The real system maintains this: a
websocket is registered by exactly one endpoint.) -/
def handleOnlyInRoom (st : ConnState) (rid : String) (h : Handle) : Prop :=
  st.active_connections.all (fun e => e.2 ≠ h) = true ∧
  ∀ re ∈ st.room_connections, re.1 ≠ rid → re.2.all (fun e => e.2 ≠ h) = true

theorem broadcastLoop_delivered (fails : Handle → Bool) (msg : String)
    (room : List (String × Handle)) :
    (broadcastLoop fails msg room).1 =
      (room.filter (fun e => !(fails e.2))).map (fun e => (e.2, msg)) := by
  induction room with
  | nil => rfl
  | cons e rest ih =>
    by_cases h : fails e.2 <;> simp [broadcastLoop, List.filter_cons, h, ih]

theorem broadcastLoop_disconnected (fails : Handle → Bool) (msg : String)
    (room : List (String × Handle)) :
    (broadcastLoop fails msg room).2.1 =
      (room.filter (fun e => fails e.2)).map (fun e => e.1) := by
  induction room with
  | nil => rfl
  | cons e rest ih =>
    by_cases h : fails e.2 <;> simp [broadcastLoop, List.filter_cons, h, ih]

theorem broadcastLoop_events (fails : Handle → Bool) (msg : String)
    (room : List (String × Handle)) :
    (broadcastLoop fails msg room).2.2 =
      room.map (fun e => if fails e.2 then WsEvent.sendFailed e.2 else WsEvent.sent e.2 msg) := by
  induction room with
  | nil => rfl
  | cons e rest ih =>
    by_cases h : fails e.2 <;> simp [broadcastLoop, h, ih]

theorem foldl_eraseA {α : Type} (us : List String) (m : List (String × α)) :
    us.foldl (fun cs u => eraseA cs u) m = m.filter (fun e => decide (e.1 ∉ us)) := by
  induction us generalizing m with
  | nil => simp
  | cons u us ih =>
    rw [List.foldl_cons, ih]
    unfold eraseA
    rw [List.filter_filter]
    refine List.filter_congr ?_
    intro e _
    by_cases h₁ : e.1 = u <;> by_cases h₂ : e.1 ∈ us <;> simp [h₁, h₂]

/-- C6: broadcasting to a room whose map holds `N` handles, of which
those in the failure set `fails` (say `M` of them) raise on send,
(a) delivers the payload to exactly the `N − M` non-failing handles —
a failing handle never prevents delivery to the others;
(b) leaves the room map holding exactly the non-failing entries, so the
failing handles are afterwards absent (absent from the whole registry
whenever they were registered only in this room);
(c) produces a trace in which all send attempts precede every removal:
the removals are appended only after the delivery loop completes. -/
theorem broadcast_to_room_failures (st : ConnState) (fails : Handle → Bool)
    (room_id msg : String) (room : List (String × Handle))
    (hroom : lookupA st.room_connections room_id = some room)
    (hkeys : (room.map Prod.fst).Nodup) :
    let r := broadcast_to_room st fails room_id msg
    r.delivered = (room.filter (fun e => !(fails e.2))).map (fun e => (e.2, msg)) ∧
    lookupA r.state.room_connections room_id = some (room.filter (fun e => !(fails e.2))) ∧
    r.events =
      room.map (fun e => if fails e.2 then WsEvent.sendFailed e.2 else WsEvent.sent e.2 msg) ++
      (room.filter (fun e => fails e.2)).map (fun e => WsEvent.roomEntryRemoved room_id e.1) ∧
    (∀ e ∈ room, fails e.2 = true → handleOnlyInRoom st room_id e.2 →
      handleInRegistry r.state e.2 = false) := by
  have hdisc := broadcastLoop_disconnected fails msg room
  have hfold : (broadcastLoop fails msg room).2.1.foldl (fun cs u => eraseA cs u) room =
      room.filter (fun e => !(fails e.2)) := by
    rw [foldl_eraseA]
    refine List.filter_congr ?_
    intro e he
    rw [hdisc]
    by_cases h : fails e.2
    · simp only [h, Bool.not_true]
      have : e.1 ∈ (room.filter (fun x => fails x.2)).map (fun x => x.1) :=
        List.mem_map.2 ⟨e, List.mem_filter.2 ⟨he, by simpa using h⟩, rfl⟩
      simp [this]
    · simp only [h, Bool.not_false]
      have : e.1 ∉ (room.filter (fun x => fails x.2)).map (fun x => x.1) := by
        intro hmem
        rcases List.mem_map.1 hmem with ⟨x, hx, hx1⟩
        rcases List.mem_filter.1 hx with ⟨hxr, hxf⟩
        have hxe : x = e := List.inj_on_of_nodup_map hkeys hxr he hx1
        rw [hxe] at hxf
        simp [h] at hxf
      simp [this]
  refine ⟨?_, ?_, ?_, ?_⟩
  · simp only [broadcast_to_room, hroom]
    exact broadcastLoop_delivered fails msg room
  · simp only [broadcast_to_room, hroom, hfold]
    rw [lookupA_setA]
    simp
  · simp only [broadcast_to_room, hroom]
    rw [broadcastLoop_events, hdisc]
    simp only [List.map_map]
    rfl
  · intro e he hf honly
    simp only [broadcast_to_room, hroom, hfold]
    unfold handleInRegistry
    rw [Bool.or_eq_false_iff]
    constructor
    · rcases honly with ⟨hgen, _⟩
      rw [List.any_eq_false]
      intro x hx
      have := List.all_eq_true.1 hgen x hx
      simpa using this
    · rw [List.any_eq_false]
      intro re hre
      simp only [setA] at hre
      rcases List.mem_append.1 hre with hre | hre
      · have hne : re.1 ≠ room_id := by
          have := List.mem_filter.1 hre
          simpa using this.2
        have hmem : re ∈ st.room_connections := (List.mem_filter.1 hre).1
        have hall := honly.2 re hmem hne
        intro hcontra
        rcases List.any_eq_true.1 hcontra with ⟨x, hx, hx2⟩
        have := List.all_eq_true.1 hall x hx
        simp at hx2 this
        exact this hx2
      · have hre2 : re = (room_id, room.filter (fun e => !(fails e.2))) := by
          simpa using hre
        subst hre2
        intro hcontra
        rcases List.any_eq_true.1 hcontra with ⟨x, hx, hx2⟩
        rcases List.mem_filter.1 hx with ⟨hxr, hxf⟩
        have hxe2 : x.2 = e.2 := by simpa using hx2
        rw [hxe2] at hxf
        simp [hf] at hxf

/-- A room map for the broadcast witness: three users with handles 1,
2, 3 in room `r1`. -/
def roomFixtureConns : List (String × Handle) := [("u1", 1), ("u2", 2), ("u3", 3)]

/-- A registry whose only entries are the three room handles of `r1`. -/
def roomFixtureConn : ConnState :=
  { active_connections := [], room_connections := [("r1", roomFixtureConns)] }

/-- Witness for the broadcast theorem: with three handles in the room
and handle 2 failing, handles 1 and 3 receive the payload, the room
map afterwards holds exactly their entries, the removal events follow
every send event, and handle 2 is gone from the registry. -/
theorem broadcast_to_room_failures_witness :
    lookupA roomFixtureConn.room_connections "r1" = some roomFixtureConns ∧
    (roomFixtureConns.map Prod.fst).Nodup ∧
    ((broadcast_to_room roomFixtureConn (fun h => h == 2) "r1" "payload").delivered =
        (roomFixtureConns.filter (fun e => !((fun (h : Handle) => h == 2) e.2))).map
          (fun e => (e.2, "payload")) ∧
      lookupA (broadcast_to_room roomFixtureConn (fun h => h == 2) "r1" "payload").state.room_connections
          "r1" = some (roomFixtureConns.filter (fun e => !((fun (h : Handle) => h == 2) e.2))) ∧
      (broadcast_to_room roomFixtureConn (fun h => h == 2) "r1" "payload").events =
        roomFixtureConns.map (fun e =>
          if (fun (h : Handle) => h == 2) e.2 then WsEvent.sendFailed e.2
          else WsEvent.sent e.2 "payload") ++
        (roomFixtureConns.filter (fun e => (fun (h : Handle) => h == 2) e.2)).map
          (fun e => WsEvent.roomEntryRemoved "r1" e.1) ∧
      (∀ e ∈ roomFixtureConns, (fun (h : Handle) => h == 2) e.2 = true →
        handleOnlyInRoom roomFixtureConn "r1" e.2 →
        handleInRegistry (broadcast_to_room roomFixtureConn (fun h => h == 2) "r1" "payload").state
          e.2 = false)) :=
  ⟨by decide, by decide,
    broadcast_to_room_failures roomFixtureConn (fun h => h == 2) "r1" "payload"
      roomFixtureConns (by decide) (by decide)⟩

/-! ## Admission Guard (`api/messaging/routes.py`)

`websocket_general_endpoint`: rate check (sliding 60-second window over
the recorded attempt timestamps, limit 5) → supersede any existing
general connection → `authenticate_websocket` → user-id/token match →
`manager.connect`. Authentication is abstracted by the verified token
subject `tokenUid : Option String` (`none` = verification failed). -/

/-- Terminal state of one admission attempt. -/
inductive AdmissionOutcome where
  | rateLimited
  | authFailed
  | userIdMismatch
  | connected
deriving Repr, DecidableEq

/-- Result of one run of `websocket_general_endpoint`: final registry,
the written-back `connection_attempts[user_id]` list, the effect trace,
the outcome, and whether `authenticate_websocket` was ever invoked. -/
structure GeneralResult where
  state : ConnState
  attempts : List Nat
  events : List WsEvent
  outcome : AdmissionOutcome
  authAttempted : Bool
deriving Repr, DecidableEq

/-- `websocket_general_endpoint(websocket, token, user_id)` for one
connection attempt at time `now`, given the previously recorded attempt
timestamps for this user. -/
def websocket_general_endpoint (st : ConnState) (attempts : List Nat) (now : Nat)
    (tokenUid : Option String) (user_id : String) (ws : Handle) : GeneralResult :=
  let pruned := attempts.filter (fun t => now - t < 60)
  if 5 ≤ pruned.length then
    { state := st, attempts := pruned,
      events := [WsEvent.closed ws 1008 "Too many connection attempts - please wait before retrying"],
      outcome := AdmissionOutcome.rateLimited, authAttempted := false }
  else
    let att := pruned ++ [now]
    let st₁ := match lookupA st.active_connections user_id with
      | some _ => disconnect st user_id none
      | none => st
    let evs₁ := match lookupA st.active_connections user_id with
      | some old => [WsEvent.closed old 1000 "New connection established", WsEvent.removed old]
      | none => []
    match tokenUid with
    | none =>
      { state := st₁, attempts := att,
        events := evs₁ ++ [WsEvent.closed ws 1008
          (if 2 < att.length then
            "Authentication failed - token may be expired, please refresh your session"
          else "Authentication failed")],
        outcome := AdmissionOutcome.authFailed, authAttempted := true }
    | some uid =>
      if uid ≠ user_id then
        { state := st₁, attempts := att,
          events := evs₁ ++ [WsEvent.closed ws 1008 "User ID mismatch"],
          outcome := AdmissionOutcome.userIdMismatch, authAttempted := true }
      else
        { state := connect st₁ ws user_id none, attempts := att,
          events := evs₁ ++ [WsEvent.stored ws],
          outcome := AdmissionOutcome.connected, authAttempted := true }

/-- C7: if five or more recorded connection attempts for the user fall
within the sliding 60-second window, the current attempt is rejected
with the policy-violation close code 1008, the registry is untouched,
and `authenticate_websocket` is never invoked — the rejection precedes
any authentication. -/
theorem websocket_general_rate_limit (st : ConnState) (attempts : List Nat) (now : Nat)
    (tokenUid : Option String) (user_id : String) (ws : Handle)
    (h : 5 ≤ (attempts.filter (fun t => now - t < 60)).length) :
    let r := websocket_general_endpoint st attempts now tokenUid user_id ws
    r.outcome = AdmissionOutcome.rateLimited ∧
    r.authAttempted = false ∧
    r.events = [WsEvent.closed ws 1008 "Too many connection attempts - please wait before retrying"] ∧
    r.state = st := by
  simp only [websocket_general_endpoint, if_pos h]
  exact ⟨by trivial, by trivial, by trivial, by trivial⟩

/-- Witness for the rate-limit theorem: five attempts recorded in the
last minute make the sixth attempt rejected unauthenticated. -/
theorem websocket_general_rate_limit_witness :
    5 ≤ (([50, 51, 52, 53, 54] : List Nat).filter (fun t => 60 - t < 60)).length ∧
    ((websocket_general_endpoint { active_connections := [], room_connections := [] }
        [50, 51, 52, 53, 54] 60 (some "u1") "u1" 9).outcome = AdmissionOutcome.rateLimited ∧
      (websocket_general_endpoint { active_connections := [], room_connections := [] }
        [50, 51, 52, 53, 54] 60 (some "u1") "u1" 9).authAttempted = false ∧
      (websocket_general_endpoint { active_connections := [], room_connections := [] }
        [50, 51, 52, 53, 54] 60 (some "u1") "u1" 9).events =
        [WsEvent.closed 9 1008 "Too many connection attempts - please wait before retrying"] ∧
      (websocket_general_endpoint { active_connections := [], room_connections := [] }
        [50, 51, 52, 53, 54] 60 (some "u1") "u1" 9).state =
        { active_connections := [], room_connections := [] }) :=
  ⟨by decide,
    websocket_general_rate_limit { active_connections := [], room_connections := [] }
      [50, 51, 52, 53, 54] 60 (some "u1") "u1" 9 (by decide)⟩

/-- C5: when a user with an existing general connection `old` is
admitted again (rate window not exceeded, token subject matches), the
endpoint closes `old` with the normal-closure code 1000 and removes it
before storing the new handle; afterwards exactly one general
connection exists for the user — the newest — all other users'
general entries are untouched, and the at-most-one-general-connection-
per-user property of the registry is preserved. -/
theorem websocket_general_supersede (st : ConnState) (attempts : List Nat) (now : Nat)
    (user_id : String) (old ws : Handle)
    (hold : lookupA st.active_connections user_id = some old)
    (hrate : (attempts.filter (fun t => now - t < 60)).length < 5)
    (hinv : ∀ u, (entriesFor st.active_connections u).length ≤ 1) :
    let r := websocket_general_endpoint st attempts now (some user_id) user_id ws
    r.outcome = AdmissionOutcome.connected ∧
    r.events = [WsEvent.closed old 1000 "New connection established",
      WsEvent.removed old, WsEvent.stored ws] ∧
    entriesFor r.state.active_connections user_id = [(user_id, ws)] ∧
    (∀ u, u ≠ user_id → entriesFor r.state.active_connections u = entriesFor st.active_connections u) ∧
    (∀ u, (entriesFor r.state.active_connections u).length ≤ 1) := by
  have hnotrate : ¬ 5 ≤ (attempts.filter (fun t => now - t < 60)).length := by omega
  simp only [websocket_general_endpoint, if_neg hnotrate, hold, ite_not, if_true]
  refine ⟨by trivial, by simp, ?_, ?_, ?_⟩
  · simp only [connect, disconnect]
    exact entriesFor_setA_self _ _ _
  · intro u hu
    simp only [connect, disconnect]
    rw [entriesFor_setA_ne _ _ _ _ (fun hh => hu hh.symm),
      entriesFor_eraseA_ne _ _ _ (fun hh => hu hh.symm)]
  · intro u
    by_cases hu : u = user_id
    · subst hu
      simp only [connect, disconnect]
      rw [entriesFor_setA_self]
      simp
    · simp only [connect, disconnect]
      rw [entriesFor_setA_ne _ _ _ _ (fun hh => hu hh.symm),
        entriesFor_eraseA_ne _ _ _ (fun hh => hu hh.symm)]
      exact hinv u

/-- Witness for the supersede theorem: user `u1` holds general handle
`1`; a second admission with handle `2` closes and removes `1` and
leaves `2` as the single general connection of `u1`. -/
theorem websocket_general_supersede_witness :
    lookupA ([("u1", 1)] : List (String × Handle)) "u1" = some 1 ∧
    (([] : List Nat).filter (fun t => 100 - t < 60)).length < 5 ∧
    ((websocket_general_endpoint { active_connections := [("u1", 1)], room_connections := [] }
        [] 100 (some "u1") "u1" 2).outcome = AdmissionOutcome.connected ∧
      (websocket_general_endpoint { active_connections := [("u1", 1)], room_connections := [] }
        [] 100 (some "u1") "u1" 2).events = [WsEvent.closed 1 1000 "New connection established",
        WsEvent.removed 1, WsEvent.stored 2] ∧
      entriesFor (websocket_general_endpoint { active_connections := [("u1", 1)], room_connections := [] }
        [] 100 (some "u1") "u1" 2).state.active_connections "u1" = [("u1", 2)] ∧
      (∀ u, u ≠ "u1" → entriesFor (websocket_general_endpoint
          { active_connections := [("u1", 1)], room_connections := [] }
          [] 100 (some "u1") "u1" 2).state.active_connections u =
        entriesFor ([("u1", 1)] : List (String × Handle)) u) ∧
      (∀ u, (entriesFor (websocket_general_endpoint
          { active_connections := [("u1", 1)], room_connections := [] }
          [] 100 (some "u1") "u1" 2).state.active_connections u).length ≤ 1)) :=
  ⟨by decide, by decide,
    websocket_general_supersede { active_connections := [("u1", 1)], room_connections := [] }
      [] 100 "u1" 1 2 (by decide) (by decide)
      (by
        intro u
        by_cases hu : u = "u1"
        · subst hu; decide
        · have hne : ¬ ("u1" = u) := fun hh => hu hh.symm
          simp [entriesFor, List.filter_cons, hne])⟩

/-! ## Conversation-room websocket endpoint
(`websocket_conversation_endpoint` in `api/messaging/routes.py`).

After `authenticate_websocket` succeeds the endpoint immediately calls
`manager.connect(websocket, user_id, room_id)` with
`room_id = "conversation_" + conversation_id`. No permission or
participation check of any kind is performed: the function does not
take the store as an input at all. -/

/-- Result of one run of `websocket_conversation_endpoint`. -/
structure RoomResult where
  state : ConnState
  events : List WsEvent
  connected : Bool
deriving Repr, DecidableEq

/-- `websocket_conversation_endpoint(websocket, conversation_id, token)`. -/
def websocket_conversation_endpoint (st : ConnState) (conversation_id : String)
    (tokenUid : Option String) (ws : Handle) : RoomResult :=
  match tokenUid with
  | none =>
    { state := st, events := [WsEvent.closed ws 1008 "Authentication failed"],
      connected := false }
  | some uid =>
    { state := connect st ws uid (some ("conversation_" ++ conversation_id)),
      events := [WsEvent.stored ws], connected := true }

/-- The empty registry. -/
def emptyConn : ConnState := { active_connections := [], room_connections := [] }

/-- The empty store: in particular, no participant record whatsoever. -/
def emptyStore : Store :=
  { conversations := [], participants := [], users := [], incidents := [], messages := [] }

/-- C2 (code evaluated at the failing input): an authenticated user
`intruder` who is a participant of no conversation — the store is
empty — connects to the room endpoint for conversation `c1` and is
registered in room `conversation_c1` with no permission check (the
endpoint never consults the store); a subsequent room broadcast
delivers the payload to the intruder's handle. -/
theorem websocket_conversation_no_permission_check :
    participantRecordExists emptyStore "c1" "intruder" = false ∧
    check_user_permission emptyStore "c1" "intruder" "employee" "read" = false ∧
    (websocket_conversation_endpoint emptyConn "c1" (some "intruder") 7).connected = true ∧
    lookupA ((lookupA (websocket_conversation_endpoint emptyConn "c1" (some "intruder") 7).state.room_connections
      "conversation_c1").getD []) "intruder" = some 7 ∧
    (broadcast_to_room (websocket_conversation_endpoint emptyConn "c1" (some "intruder") 7).state
      (fun _ => false) "conversation_c1" "secret payload").delivered = [(7, "secret payload")] := by
  decide

/-! ## TTL cache (`ConversationCache` in `conversation_service.py`)

A key/value dictionary plus a timestamp dictionary; `get` answers only
entries younger than the per-instance TTL, `set` stamps the entry with
the current time, `invalidate` drops the entry. The module holds
`_conversation_cache` (TTL 30 s, caching both composed conversations
under `conv_…` keys and incident dicts under `incident_…` keys) and
`_user_cache` (TTL 60 s). -/

/-- One `ConversationCache` instance. -/
structure ConversationCache (α : Type) where
  cache : List (String × α)
  timestamps : List (String × Nat)
  ttl : Nat
deriving Repr, DecidableEq

/-- `ConversationCache.get`. -/
def cacheGet {α : Type} (c : ConversationCache α) (now : Nat) (key : String) : Option α :=
  match lookupA c.cache key with
  | some v => if now - (lookupA c.timestamps key).getD 0 < c.ttl then some v else none
  | none => none

/-- `ConversationCache.set`. -/
def cacheSet {α : Type} (c : ConversationCache α) (now : Nat) (key : String) (v : α) :
    ConversationCache α :=
  { c with cache := setA c.cache key v, timestamps := setA c.timestamps key now }

/-- `ConversationCache.invalidate`. The conversation service defines
this method but — decisively for C4 — never calls it. -/
def cacheInvalidate {α : Type} (c : ConversationCache α) (key : String) : ConversationCache α :=
  { c with cache := eraseA c.cache key, timestamps := eraseA c.timestamps key }

/-- What `ConversationResponse(**data)` retains of the composed `data`
dict (pydantic drops unknown keys such as `incident_title`). -/
structure ConversationResponse where
  id : String
  conversation_type : String
  title : String
  incident_id : Option String
  status : String
  is_private : Bool
  participants : List ParticipantDoc
  participant_count : Nat
  last_message_id : Option String
  last_message_content : Option String
  last_message_sender : Option String
  last_message_time : Option Nat
  total_messages : Nat
  created_at : Nat
  updated_at : Nat
  created_by : String
deriving Repr, DecidableEq

/-- The user name/role pair cached by `_batch_get_users`. -/
structure UserData where
  user_name : String
  user_role : String
deriving Repr, DecidableEq

/-- Values stored in `_conversation_cache` (Python stores `Any`): the
composed conversation response under `conv_…` keys and the incident
dict under `incident_…` keys. -/
inductive CacheVal where
  | conv (r : ConversationResponse)
  | incident (i : IncidentDoc)
deriving Repr, DecidableEq

/-- The two module-level cache instances. -/
structure ServiceCaches where
  convCache : ConversationCache CacheVal
  userCache : ConversationCache UserData
deriving Repr, DecidableEq

/-- Fresh caches with the TTLs of the module
(`_conversation_cache = ConversationCache(30)`,
`_user_cache = ConversationCache(60)`). -/
def emptyCaches : ServiceCaches :=
  { convCache := { cache := [], timestamps := [], ttl := 30 },
    userCache := { cache := [], timestamps := [], ttl := 60 } }

/-! ## Display-name resolution (the fallback chain of
`_batch_get_users`) -/

/-- `pat` is a prefix of `l` (character lists). -/
def charPrefixOf : List Char → List Char → Bool
  | [], _ => true
  | _ :: _, [] => false
  | a :: as, b :: bs => a = b && charPrefixOf as bs

/-- `pat` occurs contiguously in `l` (character lists). -/
def charInfixOf (pat : List Char) : List Char → Bool
  | [] => pat.isEmpty
  | c :: rest => charPrefixOf pat (c :: rest) || charInfixOf pat rest

/-- `pat in s` on strings (Python `in`). -/
def strContains (s pat : String) : Bool :=
  charInfixOf pat.data s.data

/-- Python `str.lower()` (characterwise lowering). -/
def pyLower (s : String) : String :=
  (s.data.map Char.toLower).asString

/-- Python `str.title()`: a cased letter becomes uppercase after a
non-letter and lowercase after a letter. -/
def titleCase (s : String) : String :=
  (s.data.foldl
    (fun (acc : List Char × Bool) c =>
      (acc.1 ++ [if acc.2 then c.toLower else c.toUpper], c.isAlpha))
    ([], false)).1.asString

/-- Python `str.split()` (on spaces, empty tokens dropped). -/
def pySplitWs (s : String) : List String :=
  (s.splitOn " ").filter (fun t => t ≠ "")

/-- The name fallback chain of `_batch_get_users`: empty or
`test`-containing full names fall back to the title-cased local part of
the email (dots to spaces), else to `"User"`; real names are truncated
to their first token. -/
def resolveFullName (full_name email : String) : String :=
  if full_name.trim = "" || strContains (pyLower full_name) "test" then
    if email ≠ "" && email.data.contains '@' then
      titleCase (((email.splitOn "@").headD "").replace "." " ")
    else "User"
  else (pySplitWs full_name.trim).headD "User"

/-! ## Conversation service reads and writes
(`ConversationService` in `conversation_service.py`) -/

/-- `get_conversation_participants(conversation_id)`: the active
participant documents of the conversation. -/
def get_conversation_participants (s : Store) (conversation_id : String) :
    List ParticipantDoc :=
  s.participants.filter (fun p => p.conversation_id = conversation_id && p.is_active)

/-- `_batch_get_users(user_ids)`: serve from `_user_cache` where
possible, fetch the rest from the `users` collection, resolving display
names and caching the result. -/
def batch_get_users (s : Store) (cs : ServiceCaches) (now : Nat) (user_ids : List String) :
    List (String × UserData) × ServiceCaches :=
  let phase₁ := user_ids.foldl
    (fun (acc : List (String × UserData) × List String) uid =>
      match cacheGet cs.userCache now ("user_" ++ uid) with
      | some d => (setA acc.1 uid d, acc.2)
      | none => (acc.1, acc.2 ++ [uid]))
    ([], [])
  let phase₂ := phase₁.2.foldl
    (fun (acc : List (String × UserData) × ConversationCache UserData) uid =>
      match s.users.find? (fun u => u.uid = uid) with
      | some u =>
        let d : UserData :=
          { user_name := resolveFullName u.full_name u.email, user_role := u.role }
        (setA acc.1 uid d, cacheSet acc.2 now ("user_" ++ uid) d)
      | none => acc)
    (phase₁.1, cs.userCache)
  (phase₂.1, { cs with userCache := phase₂.2 })

/-- `_get_cached_incident(incident_id)`: read-through on
`_conversation_cache` under the `incident_` key. -/
def get_cached_incident (s : Store) (cs : ServiceCaches) (now : Nat) (incident_id : String) :
    Option IncidentDoc × ServiceCaches :=
  match cacheGet cs.convCache now ("incident_" ++ incident_id) with
  | some (CacheVal.incident i) => (some i, cs)
  | _ =>
    match s.incidents.find? (fun i => i.id = incident_id) with
    | some i =>
      (some i,
        { cs with convCache :=
            cacheSet cs.convCache now ("incident_" ++ incident_id) (CacheVal.incident i) })
    | none => (none, cs)

/-- The in-place patch `get_conversation` applies to participants of an
incident chat from the incident's reporter name. -/
def patchFromReporter (inc : IncidentDoc) (parts : List ParticipantDoc) :
    List ParticipantDoc :=
  if inc.reporter_name ≠ "" && inc.reporter_name ≠ "Unknown" && inc.reporter_name ≠ "User" then
    let first_name := (pySplitWs inc.reporter_name.trim).headD inc.reporter_name
    parts.map (fun p =>
      if (p.user_role = "employee" || p.user_id = inc.reporter_id) &&
          (p.user_name = "User" || p.user_name = "Employee" ||
            p.user_name = "Unknown" || p.user_name = "") then
        { p with user_name := first_name }
      else p)
  else parts

/-- `get_conversation(conversation_id, skip_user_refresh)`: read-through
cached composition of the conversation document, its active
participants (display names refreshed through `_batch_get_users`) and —
for incident chats — the reporter-name patch from the cached incident.
On a cache hit the cached `ConversationResponse` is returned as-is. -/
def get_conversation (s : Store) (cs : ServiceCaches) (now : Nat)
    (conversation_id : String) (skip_user_refresh : Bool) :
    Option ConversationResponse × ServiceCaches :=
  let cache_key := "conv_" ++ conversation_id
  match cacheGet cs.convCache now cache_key with
  | some (CacheVal.conv r) => (some r, cs)
  | _ =>
    match s.conversations.find? (fun c => c.id = conversation_id) with
    | none => (none, cs)
    | some doc =>
      let participants := get_conversation_participants s conversation_id
      let refreshed :=
        if participants.isEmpty || skip_user_refresh then (participants, cs)
        else
          let r := batch_get_users s cs now (participants.map (fun p => p.user_id))
          (participants.map (fun p =>
            match lookupA r.1 p.user_id with
            | some d => { p with user_name := d.user_name, user_role := d.user_role }
            | none => p), r.2)
      let cs₁ := refreshed.2
      let enriched :=
        match doc.incident_id with
        | some iid =>
          if doc.conversation_type = "incident_chat" && iid ≠ "" then
            let r := get_cached_incident s cs₁ now iid
            match r.1 with
            | some inc => (patchFromReporter inc refreshed.1, r.2)
            | none => (refreshed.1, r.2)
          else (refreshed.1, cs₁)
        | none => (refreshed.1, cs₁)
      let cs₂ := enriched.2
      let resp : ConversationResponse :=
        { id := doc.id, conversation_type := doc.conversation_type, title := doc.title,
          incident_id := doc.incident_id, status := doc.status,
          is_private := doc.is_private, participants := enriched.1,
          participant_count := refreshed.1.length,
          last_message_id := doc.last_message_id,
          last_message_content := doc.last_message_content,
          last_message_sender := doc.last_message_sender,
          last_message_time := doc.last_message_time,
          total_messages := doc.total_messages, created_at := doc.created_at,
          updated_at := doc.updated_at, created_by := doc.created_by }
      (some resp,
        { cs₂ with convCache := cacheSet cs₂.convCache now cache_key (CacheVal.conv resp) })

/-- Firestore `document(id).set(doc)` on the participants collection:
replaces any document with the same id. -/
def setParticipantDoc (l : List ParticipantDoc) (pdoc : ParticipantDoc) :
    List ParticipantDoc :=
  l.filter (fun p => p.id ≠ pdoc.id) ++ [pdoc]

/-- `add_participant(conversation_id, user_id, user_name, user_role)`:
writes the participant document (id `conversation_id_user_id`,
`is_active = True`) and returns `True`. The caches are returned exactly
as given: the method contains no cache invalidation. -/
def add_participant (s : Store) (cs : ServiceCaches) (now : Nat)
    (conversation_id user_id user_name user_role : String) :
    Store × ServiceCaches × Bool :=
  let pdoc : ParticipantDoc :=
    { id := participantKey conversation_id user_id,
      conversation_id := conversation_id, user_id := user_id,
      user_name := user_name, user_role := user_role,
      joined_at := now, is_active := true, last_read_at := none }
  ({ s with participants := setParticipantDoc s.participants pdoc }, cs, true)

/-- `update_last_message(conversation_id, message_id, message_content,
sender_name)`: the `update()` call passes the unexecuted Firestore
aggregate `messages.where(incident_id == conversation_id).count()` —
an `AggregationQuery` object, not a value — as the `total_messages`
field, which raises inside the `try` on every input (the object cannot
be encoded as a Firestore value), so the method always lands in the
`except` branch: it returns `False`, commits no write, and touches no
cache. -/
def update_last_message (s : Store) (cs : ServiceCaches) (now : Nat)
    (conversation_id message_id message_content sender_name : String) :
    Store × ServiceCaches × Bool :=
  (s, cs, false)

set_option maxRecDepth 8000 in
/-- C4 (code evaluated at the failing input): no mutating operation of
the conversation service invalidates the conversation's cache key.
(a) `add_participant` commits its write yet returns the caches exactly
as given, for every input — there is no invalidation of `conv_` keys
anywhere; (b) `update_last_message` always raises on the embedded
unexecuted aggregate and returns `False` with store and caches
untouched, so it neither commits a write nor invalidates anything;
(c) concretely: `c1` is read (and cached) at time 0 with one
participant; `u2` is added at time 5; a read at time 10 still returns
the pre-write cached snapshot with one participant, although a
cache-less read of the same store sees two. -/
theorem conversation_mutations_never_invalidate_cache :
    (∀ (s : Store) (cs : ServiceCaches) (now : Nat) (cid uid un ur : String),
      (add_participant s cs now cid uid un ur).2.1 = cs) ∧
    (∀ (s : Store) (cs : ServiceCaches) (now : Nat) (cid mid mc sn : String),
      update_last_message s cs now cid mid mc sn = (s, cs, false)) ∧
    ((get_conversation
        (add_participant storeTeamInternal
          (get_conversation storeTeamInternal emptyCaches 0 "c1" false).2
          5 "c1" "u2" "Bob" "employee").1
        (add_participant storeTeamInternal
          (get_conversation storeTeamInternal emptyCaches 0 "c1" false).2
          5 "c1" "u2" "Bob" "employee").2.1
        10 "c1" false).1 =
      (get_conversation storeTeamInternal emptyCaches 0 "c1" false).1 ∧
      ((get_conversation storeTeamInternal emptyCaches 0 "c1" false).1.map
        (fun r => r.participant_count)) = some 1 ∧
      ((get_conversation
          (add_participant storeTeamInternal
            (get_conversation storeTeamInternal emptyCaches 0 "c1" false).2
            5 "c1" "u2" "Bob" "employee").1
          emptyCaches 10 "c1" false).1.map (fun r => r.participant_count)) = some 2) := by
  exact ⟨fun s cs now cid uid un ur => rfl,
    fun s cs now cid mid mc sn => rfl, by decide⟩

/-! ## Message listing (`MessagingService.get_incident_messages` in
`incidents/messaging_service.py`)

The primary path asks the backing store for
`where(incident_id == iid).order_by(created_at)`. If the store raises
and the error text mentions `index`, the service falls back to the
unordered fetch followed by Python's stable in-memory
`messages.sort(key = created_at or datetime.min)`; any other error is
re-raised. -/

/-- The fallback sort key: `x.created_at if x.created_at else
datetime.min`. -/
def msgKey (m : MessageDoc) : Nat :=
  m.created_at.getD 0

/-- Stable insertion: a message goes before the first element whose key
it does not exceed, after every element with a smaller-or-equal key. -/
def insertByCreated (x : MessageDoc) : List MessageDoc → List MessageDoc
  | [] => [x]
  | y :: ys =>
    if msgKey x ≤ msgKey y then x :: y :: ys
    else y :: insertByCreated x ys

/-- Python's stable `list.sort(key=msgKey)` as insertion sort (any
stable comparison sort computes the same list). -/
def sortByCreated : List MessageDoc → List MessageDoc
  | [] => []
  | x :: rest => insertByCreated x (sortByCreated rest)

/-- Modelled from the spec: the backing store's ordered query
(`order_by('created_at')` over the documents matching
`incident_id == iid`), absent from `src/` because Firestore executes
it — per the spec the store returns the matching documents sorted by
creation time, document order preserved among equal keys, i.e. the
stable sort of the unordered fetch. -/
def orderedQuery (msgs : List MessageDoc) (incident_id : String) : List MessageDoc :=
  sortByCreated (msgs.filter (fun m => m.incident_id = incident_id))

/-- `get_incident_messages(incident_id)`: `orderedResult` is the
outcome of the primary store-side ordered query (`Except.error e` =
the query raised with message `e`). -/
def get_incident_messages (s : Store) (orderedResult : Except String (List MessageDoc))
    (incident_id : String) : Except String (List MessageDoc) :=
  match orderedResult with
  | Except.ok msgs => Except.ok msgs
  | Except.error e =>
    if strContains (pyLower e) "index" then
      Except.ok (sortByCreated (s.messages.filter (fun m => m.incident_id = incident_id)))
    else Except.error e

theorem insertByCreated_perm (x : MessageDoc) (l : List MessageDoc) :
    (insertByCreated x l).Perm (x :: l) := by
  induction l with
  | nil => simp [insertByCreated]
  | cons y ys ih =>
    by_cases h : msgKey x ≤ msgKey y
    · simp [insertByCreated, h]
    · simp only [insertByCreated, if_neg h]
      exact (ih.cons y).trans (List.Perm.swap x y ys)

theorem sortByCreated_perm (l : List MessageDoc) : (sortByCreated l).Perm l := by
  induction l with
  | nil => simp [sortByCreated]
  | cons x rest ih =>
    exact (insertByCreated_perm x (sortByCreated rest)).trans (ih.cons x)

theorem insertByCreated_sorted (x : MessageDoc) (l : List MessageDoc)
    (h : l.Sorted (fun a b => msgKey a ≤ msgKey b)) :
    (insertByCreated x l).Sorted (fun a b => msgKey a ≤ msgKey b) := by
  induction l with
  | nil => simp [insertByCreated]
  | cons y ys ih =>
    rcases List.sorted_cons.1 h with ⟨hy, hys⟩
    by_cases hxy : msgKey x ≤ msgKey y
    · simp only [insertByCreated, if_pos hxy]
      refine List.sorted_cons.2 ⟨?_, h⟩
      intro b hb
      rcases List.mem_cons.1 hb with hb | hb
      · exact hb ▸ hxy
      · exact le_trans hxy (hy b hb)
    · simp only [insertByCreated, if_neg hxy]
      refine List.sorted_cons.2 ⟨?_, ih hys⟩
      intro b hb
      have hmem := (insertByCreated_perm x ys).mem_iff.1 hb
      rcases List.mem_cons.1 hmem with hb₂ | hb₂
      · exact hb₂ ▸ le_of_not_le hxy
      · exact hy b hb₂

theorem sortByCreated_sorted (l : List MessageDoc) :
    (sortByCreated l).Sorted (fun a b => msgKey a ≤ msgKey b) := by
  induction l with
  | nil => simp [sortByCreated]
  | cons x rest ih => exact insertByCreated_sorted x (sortByCreated rest) ih

/-- C8: when the store cannot satisfy the ordered query and raises an
error mentioning a missing index, `get_incident_messages` answers
normally (no error surfaces to the caller) with the in-memory stable
sort of the unordered fetch — exactly the list the primary store-side
ordered path returns; this shared result is sorted by creation time
and is a permutation of the incident's stored messages. -/
theorem get_incident_messages_fallback_eq_primary (s : Store) (incident_id e : String)
    (he : strContains (pyLower e) "index" = true) :
    get_incident_messages s (Except.error e) incident_id =
      Except.ok (orderedQuery s.messages incident_id) ∧
    get_incident_messages s (Except.ok (orderedQuery s.messages incident_id)) incident_id =
      Except.ok (orderedQuery s.messages incident_id) ∧
    (orderedQuery s.messages incident_id).Sorted (fun a b => msgKey a ≤ msgKey b) ∧
    (orderedQuery s.messages incident_id).Perm
      (s.messages.filter (fun m => m.incident_id = incident_id)) := by
  refine ⟨?_, rfl, sortByCreated_sorted _, sortByCreated_perm _⟩
  simp [get_incident_messages, he, orderedQuery]

/-- Three messages of incident `i1`, stored out of creation order. -/
def storeMsgs : Store :=
  { conversations := [], participants := [], users := [], incidents := [],
    messages := [
      { id := "m2", incident_id := "i1", sender_id := "e1", sender_name := "Eve",
        content := "second", created_at := some 20, is_read := false },
      { id := "m1", incident_id := "i1", sender_id := "s1", sender_name := "Sam",
        content := "first", created_at := some 10, is_read := false },
      { id := "x", incident_id := "other", sender_id := "s1", sender_name := "Sam",
        content := "noise", created_at := some 5, is_read := false },
      { id := "m3", incident_id := "i1", sender_id := "e1", sender_name := "Eve",
        content := "third", created_at := some 30, is_read := false }] }

/-- Witness for the fallback theorem: a Firestore-style missing-index
error message triggers the fallback, which answers `ok` with the
messages of `i1` in creation order. -/
theorem get_incident_messages_fallback_witness :
    strContains (pyLower "The query requires an index. You can create it here") "index" = true ∧
    (get_incident_messages storeMsgs
        (Except.error "The query requires an index. You can create it here") "i1" =
      Except.ok (orderedQuery storeMsgs.messages "i1") ∧
      get_incident_messages storeMsgs
        (Except.ok (orderedQuery storeMsgs.messages "i1")) "i1" =
        Except.ok (orderedQuery storeMsgs.messages "i1") ∧
      (orderedQuery storeMsgs.messages "i1").Sorted (fun a b => msgKey a ≤ msgKey b) ∧
      (orderedQuery storeMsgs.messages "i1").Perm
        (storeMsgs.messages.filter (fun m => m.incident_id = "i1"))) :=
  ⟨by decide,
    get_incident_messages_fallback_eq_primary storeMsgs "i1"
      "The query requires an index. You can create it here" (by decide)⟩

/-! ## Incident conversation creation
(`ConversationService.create_incident_conversation` in
`conversation_service.py`)

`participants = [reporter_id]`; then `target_members` (if truthy, i.e.
a non-empty list) are appended, else `assigned_to` (if truthy, i.e. a
non-empty string), else every `role == 'security_team'` user's uid not
already present; finally `participants = list(set(participants))` and
`is_private = len(participants) <= 2`. -/

/-- The deduplicating append of the security-team fallback loop
(`if uid not in participants: participants.append(uid)`). -/
def appendSecurityTeam (base : List String) (securityTeamUids : List String) : List String :=
  securityTeamUids.foldl (fun acc uid => if uid ∈ acc then acc else acc ++ [uid]) base

/-- The participant list `create_incident_conversation` passes to
`ConversationCreate`, after `list(set(...))` deduplication (modelled as
`List.dedup`: same member set, same cardinality). -/
def create_incident_conversation_participants (securityTeamUids : List String)
    (reporter_id : String) (assigned_to : Option String)
    (target_members : Option (List String)) : List String :=
  let base := [reporter_id]
  let ps :=
    match target_members with
    | some (t :: ts) => base ++ t :: ts
    | _ =>
      match assigned_to with
      | some a => if a = "" then appendSecurityTeam base securityTeamUids else base ++ [a]
      | none => appendSecurityTeam base securityTeamUids
  ps.dedup

/-- `is_private = len(participants) <= 2`, computed on the
deduplicated list. -/
def create_incident_conversation_is_private (securityTeamUids : List String)
    (reporter_id : String) (assigned_to : Option String)
    (target_members : Option (List String)) : Bool :=
  decide ((create_incident_conversation_participants securityTeamUids reporter_id
    assigned_to target_members).length ≤ 2)

/-- C9 (counterexample): with reporter `r1`, no assignee and no target
members, but two security-team users in the store, the participant
list is not `[r1]`: the security team is pulled in (three distinct
participants) and `is_private` comes out `false` — refuting the
claimed singleton participant set and the claimed `is_private = true`. -/
theorem create_incident_conversation_scenarioA_cex :
    create_incident_conversation_participants ["s1", "s2"] "r1" none none ≠ ["r1"] ∧
    "s1" ∈ create_incident_conversation_participants ["s1", "s2"] "r1" none none ∧
    (create_incident_conversation_participants ["s1", "s2"] "r1" none none).length = 3 ∧
    create_incident_conversation_is_private ["s1", "s2"] "r1" none none = false := by
  decide

theorem mem_appendSecurityTeam (securityTeamUids : List String) :
    ∀ (acc : List String) (u : String),
      u ∈ appendSecurityTeam acc securityTeamUids ↔ u ∈ acc ∨ u ∈ securityTeamUids := by
  induction securityTeamUids with
  | nil =>
    intro acc u
    simp [appendSecurityTeam]
  | cons a rest ih =>
    intro acc u
    by_cases h : a ∈ acc
    · have hfold : appendSecurityTeam acc (a :: rest) = appendSecurityTeam acc rest := by
        simp [appendSecurityTeam, if_pos h]
      rw [hfold, ih acc u]
      constructor
      · rintro (hu | hu)
        · exact Or.inl hu
        · exact Or.inr (List.mem_cons_of_mem a hu)
      · rintro (hu | hu)
        · exact Or.inl hu
        · rcases List.mem_cons.1 hu with hu | hu
          · exact Or.inl (hu ▸ h)
          · exact Or.inr hu
    · have hfold : appendSecurityTeam acc (a :: rest) = appendSecurityTeam (acc ++ [a]) rest := by
        simp [appendSecurityTeam, if_neg h]
      rw [hfold, ih (acc ++ [a]) u]
      simp only [List.mem_append, List.mem_singleton, List.mem_cons]
      tauto

/-- C9 (amended): with no (truthy) assignee and no (truthy) target
members, the participant set of the created incident conversation is
exactly `{reporter} ∪ securityTeamUids` — the reporter plus every
security-team user found by the fallback query — without duplicates;
`is_private` is `true` iff the deduplicated participant count is at
most 2; in particular, only when the security-team query contributes
nobody is the participant list exactly `[reporter]` (and `is_private`
then `true`). -/
theorem create_incident_conversation_fallback_characterization :
    ∀ (securityTeamUids : List String) (reporter_id : String),
      (∀ u, u ∈ create_incident_conversation_participants securityTeamUids reporter_id none none ↔
        u = reporter_id ∨ u ∈ securityTeamUids) ∧
      (create_incident_conversation_participants securityTeamUids reporter_id none none).Nodup ∧
      create_incident_conversation_is_private securityTeamUids reporter_id none none =
        decide ((create_incident_conversation_participants securityTeamUids reporter_id
          none none).length ≤ 2) ∧
      create_incident_conversation_participants [] reporter_id none none = [reporter_id] ∧
      create_incident_conversation_is_private [] reporter_id none none = true := by
  intro securityTeamUids reporter_id
  refine ⟨?_, ?_, rfl, ?_, ?_⟩
  · intro u
    show u ∈ (appendSecurityTeam [reporter_id] securityTeamUids).dedup ↔ _
    rw [List.mem_dedup, mem_appendSecurityTeam]
    simp
  · exact List.nodup_dedup _
  · show ([reporter_id] : List String).dedup = [reporter_id]
    simp
  · show decide ((([reporter_id] : List String).dedup).length ≤ 2) = true
    simp

end Secura
